import Mathlib

/-!
Verification development for the pika monitoring server.

Shallow embedding of the parts of the code base that the specification's
claims are about:

* the WebSocket session manager (`Manager.registerClient`,
  `Manager.unregisterClient`, `Manager.checkInactiveClients`) and the
  per-session read loop (`Client.ReadPump`);
* the metric converter (`convertToMetrics` / `createMetric`);
* the retention sweep (`MetricRepo.DeleteOldMetrics`);
* the alert notifier (`Notifier.SendNotification`, `sendDingTalk`,
  `calculateDingTalkSign`, `sendJSONRequest`).

Conventions: Go `time.Time`/millisecond instants are modeled as `Int`
milliseconds; Go maps are modeled as association lists with unique keys;
Go channels that merely queue work are modeled as lists; a Go panic is
modeled by an `Option` result being `none`.
-/

/-! ## Association-list maps (model of Go `map[string]V`) -/

/-- Lookup in an association list, the model of Go map indexing. -/
def alookup {V : Type} : List (String × V) → String → Option V
  | [], _ => none
  | p :: rest, k => if p.1 = k then some p.2 else alookup rest k

/-- Model of Go map assignment `m[k] = v`: replace the binding if the key
is present, append it otherwise. -/
def insertId {V : Type} : List (String × V) → String → V → List (String × V)
  | [], k, v => [(k, v)]
  | p :: rest, k, v => if p.1 = k then (k, v) :: rest else p :: insertId rest k v

/-- Model of Go `delete(m, k)`. -/
def eraseId {V : Type} : List (String × V) → String → List (String × V)
  | [], _ => []
  | p :: rest, k => if p.1 = k then eraseId rest k else p :: eraseId rest k

/-- Number of bindings for a key (used to state the one-session-per-probe
invariant). -/
def countKey {V : Type} (l : List (String × V)) (k : String) : Nat :=
  (l.filter (fun p => decide (p.1 = k))).length

/-- The association list has pairwise distinct keys, the representation
invariant of a Go map. -/
@[reducible] def keysNodup {V : Type} (l : List (String × V)) : Prop :=
  (l.map Prod.fst).Nodup

/-! ## Session manager (internal/websocket, `Client` and `Manager`)

A `Client` mirrors the Go struct: `ID` (probe id), an artificial `uid`
standing for the object's identity (Go pointer), `LastActive`, the
one-shot `closed` flag of the send channel, and whether `Conn.Close` has
been called on the socket. -/

structure Client where
  id : String
  uid : Nat
  lastActive : Int
  closed : Bool
  sockClosed : Bool
deriving DecidableEq

/-- `Client.closeChannel`: one-shot close of the send channel
(`if !c.closed { close(c.Send); c.closed = true }`). -/
def Client.closeChannel (c : Client) : Client :=
  if c.closed then c else ⟨c.id, c.uid, c.lastActive, true, c.sockClosed⟩

/-- `c.Conn.Close()`. -/
def Client.connClose (c : Client) : Client :=
  ⟨c.id, c.uid, c.lastActive, c.closed, true⟩

/-- The manager state the claims depend on: the `clients` map
(`probeID -> *Client`) and the contents of the `unregister` channel. -/
structure Manager where
  clients : List (String × Client)
  unregisterQueue : List Client
deriving DecidableEq

/-- `Manager.registerClient`: if a client with the same probe id exists,
close its send channel and its socket, then insert the new client.
Returns the new state and the displaced client (after its closes). -/
def Manager.registerClient (m : Manager) (c : Client) : Manager × Option Client :=
  match alookup m.clients c.id with
  | some oldClient =>
      (⟨insertId m.clients c.id c, m.unregisterQueue⟩,
       some oldClient.closeChannel.connClose)
  | none => (⟨insertId m.clients c.id c, m.unregisterQueue⟩, none)

/-- `Manager.unregisterClient`: the source checks only that SOME client is
registered under `client.ID` (`if _, exists := m.clients[client.ID]`), then
deletes that map entry and closes the ARGUMENT client's channel. Returns
the new state and the argument client after the close. -/
def Manager.unregisterClient (m : Manager) (c : Client) : Manager × Client :=
  match alookup m.clients c.id with
  | some _ => (⟨eraseId m.clients c.id, m.unregisterQueue⟩, c.closeChannel)
  | none => (m, c)

/-- The liveness timeout: `timeout := 2 * time.Minute`, in ms. -/
def inactivityTimeoutMs : Int := 120000

/-- First phase of `Manager.checkInactiveClients`: collect the clients with
`time.Since(client.LastActive) > timeout` (strict comparison). -/
def Manager.selectInactive (m : Manager) (now : Int) : List Client :=
  (m.clients.map Prod.snd).filter (fun c => decide (now - c.lastActive > inactivityTimeoutMs))

/-- Second phase of `Manager.checkInactiveClients`: for each selected
client, re-check membership (by id) in the table, and if present close its
socket and enqueue an unregister. Returns (acted-on clients with their
sockets closed, unregister enqueue order). -/
def evictLoop (tbl : List (String × Client)) : List Client → List Client × List Client
  | [] => ([], [])
  | c :: rest =>
      let r := evictLoop tbl rest
      if (alookup tbl c.id).isSome then (c.connClose :: r.1, c :: r.2) else r

/-- `Manager.checkInactiveClients` on a 30-second tick at instant `now`:
the table itself is unchanged (unregisters are queued, not applied), the
acted-on clients have their sockets closed and are put on the unregister
queue. -/
def Manager.checkInactiveClients (m : Manager) (now : Int) : Manager × List Client :=
  let inactive := m.selectInactive now
  let r := evictLoop m.clients inactive
  (⟨m.clients, m.unregisterQueue ++ r.2⟩, r.1)

/-! ## Concrete states used by witnesses and counterexamples -/

/-- A session that was displaced (channel and socket closed) but whose
deferred unregister has not run yet. -/
def staleClient : Client := ⟨"p", 1, 0, true, true⟩

/-- The newer session registered for the same probe id. -/
def freshClient : Client := ⟨"p", 2, 1000, false, false⟩

/-- Manager state right after `freshClient` displaced `staleClient`. -/
def mgrAfterDisplacement : Manager := ⟨[("p", freshClient)], []⟩

/-- An open session for registration witnesses. -/
def regOld : Client := ⟨"p", 7, 0, false, false⟩

/-- A reconnecting session with the same probe id. -/
def regNew : Client := ⟨"p", 8, 5, false, false⟩

/-- Manager with `regOld` registered. -/
def mgrOne : Manager := ⟨[("p", regOld)], []⟩

/-- A client whose inactivity is exactly the 120 s cutoff at `now = 120000`. -/
def boundaryClient : Client := ⟨"p", 3, 0, false, false⟩

/-- Manager holding only `boundaryClient`. -/
def mgrBoundary : Manager := ⟨[("p", boundaryClient)], []⟩

/-! ## Probe session read loop (`Client.ReadPump`)

The read loop sets an initial read deadline of 60 s and installs a pong
handler that resets the deadline and `LastActive`; the loop body updates
`LastActive` on every received message but contains no further
`SetReadDeadline` call. Envelope decode failures are logged and skipped;
a `ReadMessage` error breaks the loop, after which the deferred
`c.Manager.unregister <- c; c.Conn.Close()` runs. -/

/-- Deadline-relevant state of a session's read side. -/
structure ReadState where
  readDeadline : Int
  lastActive : Int
deriving DecidableEq

/-- `60 * time.Second` in ms. -/
def readTimeoutMs : Int := 60000

/-- `c.Conn.SetReadDeadline(time.Now().Add(60 * time.Second))` at loop
entry; `LastActive` keeps its prior value `la`. -/
def readPumpInit (now la : Int) : ReadState := ⟨now + readTimeoutMs, la⟩

/-- Events that affect the deadline: a pong, or an inbound data frame. -/
inductive ReadEvent where
  | pong
  | frame (decodeOk : Bool)
deriving DecidableEq

/-- Effect of one event at instant `now`: the pong handler resets the
deadline and `LastActive`; a received frame only sets `LastActive`. -/
def readPumpStep (s : ReadState) (now : Int) : ReadEvent → ReadState
  | ReadEvent.pong => ⟨now + readTimeoutMs, now⟩
  | ReadEvent.frame _ => ⟨s.readDeadline, now⟩

/-- Inbound read-loop events for the error-handling claim: a frame with a
payload tag and whether its envelope decodes, or an I/O error from
`ReadMessage`. -/
inductive InEvent where
  | frame (payload : Nat) (decodeOk : Bool)
  | ioError
deriving DecidableEq

/-- Observable outcome of running the read loop over a finite event
sequence: handled payloads, skipped payloads, and whether the deferred
unregister/close ran. -/
structure PumpExit where
  handled : List Nat
  skipped : List Nat
  unregisterEnqueued : Bool
  socketClosed : Bool
deriving DecidableEq

/-- The read loop of `Client.ReadPump`: a decode failure is skipped and
the loop continues; an I/O error breaks the loop and the deferred
unregister and socket close run. An exhausted event list means the loop
is still blocked reading (no teardown yet). -/
def runReadPump : List InEvent → PumpExit
  | [] => ⟨[], [], false, false⟩
  | InEvent.ioError :: _ => ⟨[], [], true, true⟩
  | InEvent.frame p true :: rest =>
      let r := runReadPump rest
      ⟨p :: r.handled, r.skipped, r.unregisterEnqueued, r.socketClosed⟩
  | InEvent.frame p false :: rest =>
      let r := runReadPump rest
      ⟨r.handled, p :: r.skipped, r.unregisterEnqueued, r.socketClosed⟩

/-- Specification-side: is the event the I/O error? -/
def isIOError : InEvent → Bool
  | InEvent.ioError => true
  | InEvent.frame _ _ => false

/-- Specification-side: the decodable frames before the first I/O error. -/
def handledFrames (evs : List InEvent) : List Nat :=
  (evs.takeWhile (fun e => !isIOError e)).filterMap (fun e =>
    match e with
    | InEvent.frame p true => some p
    | _ => none)

/-- Specification-side: the undecodable frames before the first I/O error. -/
def skippedFrames (evs : List InEvent) : List Nat :=
  (evs.takeWhile (fun e => !isIOError e)).filterMap (fun e =>
    match e with
    | InEvent.frame p false => some p
    | _ => none)

/-! ## Metric converter (`convertToMetrics` / `createMetric`)

The payload structs carry exactly the fields the converter reads. Go
`float64` values pass through the converter untouched, so they are
modeled as `Int`; the `uint64` rate sum of the disk-io case wraps modulo
2^64 as in Go. The Go `data interface{}` parameter is the sum type
`MetricBody`; a failed Go type assertion (`data.(*protocol.CPUData)`
panics when the dynamic type differs) is modeled by result `none`.
The metric-kind discriminant (`protocol.MetricType`) is an enumeration
with a constructor for every case of the source's `switch` plus `other`
for any other string (the switch has no default, so `other` produces no
metrics). -/

structure CPUData where
  usagePercent : Int
  logicalCores : Int
  physicalCores : Int
deriving DecidableEq

structure MemoryData where
  usagePercent : Int
  total : Int
  used : Int
  available : Int
  swapTotal : Int
  swapUsed : Int
deriving DecidableEq

structure DiskData where
  mountPoint : String
  usagePercent : Int
  total : Int
  used : Int
  free : Int
deriving DecidableEq

structure NetworkData where
  iface : String
  bytesSentRate : Int
  bytesRecvRate : Int
  bytesSentTotal : Int
  bytesRecvTotal : Int
deriving DecidableEq

structure NetworkConnectionData where
  established : Int
  synSent : Int
  synRecv : Int
  timeWait : Int
  closeWait : Int
  total : Int
deriving DecidableEq

structure DiskIoData where
  readBytesRate : Int
  writeBytesRate : Int
deriving DecidableEq

structure GPUData where
  index : Int
  name : String
  utilization : Int
  memoryTotal : Int
  memoryUsed : Int
  temperature : Int
  powerUsage : Int
deriving DecidableEq

/-- `sensorType` models the Go field `Type`. -/
structure TemperatureData where
  sensorType : String
  temperature : Int
deriving DecidableEq

/-- `monitorType` models the Go field `Type`. -/
structure MonitorData where
  monitorId : String
  monitorType : String
  target : String
  responseTime : Int
deriving DecidableEq

inductive MetricType where
  | cpu
  | memory
  | disk
  | network
  | networkConnection
  | diskIo
  | gpu
  | temperature
  | monitor
  | other (s : String)
deriving DecidableEq

inductive MetricBody where
  | cpu (d : CPUData)
  | memory (d : MemoryData)
  | disk (l : List DiskData)
  | network (l : List NetworkData)
  | networkConnection (d : NetworkConnectionData)
  | diskIo (l : List DiskIoData)
  | gpu (l : List GPUData)
  | temperature (l : List TemperatureData)
  | monitor (l : List MonitorData)
deriving DecidableEq

/-- `vmclient.Metric`: labels (including `__name__`), one value, one
timestamp. -/
structure Metric where
  metric : List (String × String)
  values : List Int
  timestamps : List Int
deriving DecidableEq

/-- `createMetric(metricName, agentID, extraLabels, value, timestamp)`. -/
def createMetric (metricName agentID : String) (extraLabels : List (String × String))
    (value : Int) (timestamp : Int) : Metric :=
  ⟨[("__name__", metricName), ("agent_id", agentID)] ++ extraLabels, [value], [timestamp]⟩

/-- 2^64, modulus of Go `uint64` addition. -/
def uint64Mod : Int := 18446744073709551616

/-- `convertToMetrics(agentID, metricType, data, timestamp)`: one case per
arm of the source's `switch`; a known kind whose body has a different
dynamic type panics in Go (`none` here); a kind outside the switch
produces no metrics. -/
def convertToMetrics (agentID : String) (metricType : MetricType) (data : MetricBody)
    (timestamp : Int) : Option (List Metric) :=
  match metricType, data with
  | MetricType.cpu, MetricBody.cpu d =>
      some [createMetric "pika_cpu_usage_percent" agentID [] d.usagePercent timestamp,
            createMetric "pika_cpu_cores_logical" agentID [] d.logicalCores timestamp,
            createMetric "pika_cpu_cores_physical" agentID [] d.physicalCores timestamp]
  | MetricType.memory, MetricBody.memory d =>
      some [createMetric "pika_memory_usage_percent" agentID [] d.usagePercent timestamp,
            createMetric "pika_memory_total_bytes" agentID [] d.total timestamp,
            createMetric "pika_memory_used_bytes" agentID [] d.used timestamp,
            createMetric "pika_memory_available_bytes" agentID [] d.available timestamp,
            createMetric "pika_memory_swap_total_bytes" agentID [] d.swapTotal timestamp,
            createMetric "pika_memory_swap_used_bytes" agentID [] d.swapUsed timestamp]
  | MetricType.disk, MetricBody.disk l =>
      some (l.flatMap (fun d =>
        [createMetric "pika_disk_usage_percent" agentID [("mount_point", d.mountPoint)]
           d.usagePercent timestamp,
         createMetric "pika_disk_total_bytes" agentID [("mount_point", d.mountPoint)]
           d.total timestamp,
         createMetric "pika_disk_used_bytes" agentID [("mount_point", d.mountPoint)]
           d.used timestamp,
         createMetric "pika_disk_free_bytes" agentID [("mount_point", d.mountPoint)]
           d.free timestamp]))
  | MetricType.network, MetricBody.network l =>
      some (l.flatMap (fun d =>
        [createMetric "pika_network_sent_bytes_rate" agentID [("interface", d.iface)]
           d.bytesSentRate timestamp,
         createMetric "pika_network_recv_bytes_rate" agentID [("interface", d.iface)]
           d.bytesRecvRate timestamp,
         createMetric "pika_network_sent_bytes_total" agentID [("interface", d.iface)]
           d.bytesSentTotal timestamp,
         createMetric "pika_network_recv_bytes_total" agentID [("interface", d.iface)]
           d.bytesRecvTotal timestamp]))
  | MetricType.networkConnection, MetricBody.networkConnection d =>
      some [createMetric "pika_network_conn_established" agentID [] d.established timestamp,
            createMetric "pika_network_conn_syn_sent" agentID [] d.synSent timestamp,
            createMetric "pika_network_conn_syn_recv" agentID [] d.synRecv timestamp,
            createMetric "pika_network_conn_time_wait" agentID [] d.timeWait timestamp,
            createMetric "pika_network_conn_close_wait" agentID [] d.closeWait timestamp,
            createMetric "pika_network_conn_total" agentID [] d.total timestamp]
  | MetricType.diskIo, MetricBody.diskIo l =>
      let totalReadRate := (l.map DiskIoData.readBytesRate).sum % uint64Mod
      let totalWriteRate := (l.map DiskIoData.writeBytesRate).sum % uint64Mod
      some [createMetric "pika_disk_read_bytes_rate" agentID [] totalReadRate timestamp,
            createMetric "pika_disk_write_bytes_rate" agentID [] totalWriteRate timestamp]
  | MetricType.gpu, MetricBody.gpu l =>
      some (l.flatMap (fun d =>
        [createMetric "pika_gpu_utilization_percent" agentID
           [("gpu_index", toString d.index), ("gpu_name", d.name)] d.utilization timestamp,
         createMetric "pika_gpu_memory_total_bytes" agentID
           [("gpu_index", toString d.index), ("gpu_name", d.name)] d.memoryTotal timestamp,
         createMetric "pika_gpu_memory_used_bytes" agentID
           [("gpu_index", toString d.index), ("gpu_name", d.name)] d.memoryUsed timestamp,
         createMetric "pika_gpu_temperature_celsius" agentID
           [("gpu_index", toString d.index), ("gpu_name", d.name)] d.temperature timestamp,
         createMetric "pika_gpu_power_draw_watts" agentID
           [("gpu_index", toString d.index), ("gpu_name", d.name)] d.powerUsage timestamp]))
  | MetricType.temperature, MetricBody.temperature l =>
      some (l.flatMap (fun d =>
        [createMetric "pika_temperature_celsius" agentID [("sensor_label", d.sensorType)]
           d.temperature timestamp]))
  | MetricType.monitor, MetricBody.monitor l =>
      some (l.flatMap (fun d =>
        [createMetric "pika_monitor_response_time_ms" agentID
           [("monitor_id", d.monitorId), ("monitor_type", d.monitorType), ("target", d.target)]
           d.responseTime timestamp]))
  | MetricType.other _, _ => some []
  | _, _ => none

/-- Specification-side: the `__name__` label of a produced metric. -/
def metricName (m : Metric) : String :=
  (alookup m.metric "__name__").getD ""

/-- Specification-side: the closed set of time-series metric names the
converter can emit (the §4.2 table, each name carried with the source's
leading `pika_`). -/
def pikaMetricNames : List String :=
  ["pika_cpu_usage_percent", "pika_cpu_cores_logical", "pika_cpu_cores_physical",
   "pika_memory_usage_percent", "pika_memory_total_bytes", "pika_memory_used_bytes",
   "pika_memory_available_bytes", "pika_memory_swap_total_bytes", "pika_memory_swap_used_bytes",
   "pika_disk_usage_percent", "pika_disk_total_bytes", "pika_disk_used_bytes",
   "pika_disk_free_bytes",
   "pika_network_sent_bytes_rate", "pika_network_recv_bytes_rate",
   "pika_network_sent_bytes_total", "pika_network_recv_bytes_total",
   "pika_network_conn_established", "pika_network_conn_syn_sent", "pika_network_conn_syn_recv",
   "pika_network_conn_time_wait", "pika_network_conn_close_wait", "pika_network_conn_total",
   "pika_disk_read_bytes_rate", "pika_disk_write_bytes_rate",
   "pika_gpu_utilization_percent", "pika_gpu_memory_total_bytes", "pika_gpu_memory_used_bytes",
   "pika_gpu_temperature_celsius", "pika_gpu_power_draw_watts",
   "pika_temperature_celsius",
   "pika_monitor_response_time_ms"]

/-- Specification-side: does the body's dynamic type match the kind's type
assertion (always true for kinds outside the switch, which assert
nothing)? -/
def bodyMatchesKind : MetricType → MetricBody → Bool
  | MetricType.cpu, MetricBody.cpu _ => true
  | MetricType.memory, MetricBody.memory _ => true
  | MetricType.disk, MetricBody.disk _ => true
  | MetricType.network, MetricBody.network _ => true
  | MetricType.networkConnection, MetricBody.networkConnection _ => true
  | MetricType.diskIo, MetricBody.diskIo _ => true
  | MetricType.gpu, MetricBody.gpu _ => true
  | MetricType.temperature, MetricBody.temperature _ => true
  | MetricType.monitor, MetricBody.monitor _ => true
  | MetricType.other _, _ => true
  | _, _ => false

/-! ## Retention sweep (`MetricRepo.DeleteOldMetrics`)

A metric table is modeled by the list of its rows' timestamps. One
GORM statement `Where("timestamp < ?", beforeTimestamp).Limit(batchSize)
.Delete(table)` removes up to 1000 matching rows and reports
`RowsAffected`; the loop repeats until `RowsAffected < batchSize`. -/

/-- `batchSize := 1000`. -/
def batchSize : Nat := 1000

/-- One bounded delete statement: walk the table in row order, removing
rows with `timestamp < cutoff` while the remaining budget is positive.
Returns (remaining rows, `RowsAffected`). -/
def deleteBatchAux (cutoff : Int) : Nat → List Int → List Int × Nat
  | _, [] => ([], 0)
  | 0, rows => (rows, 0)
  | b + 1, r :: rest =>
      if r < cutoff then
        let p := deleteBatchAux cutoff b rest
        (p.1, p.2 + 1)
      else
        let p := deleteBatchAux cutoff (b + 1) rest
        (r :: p.1, p.2)

/-- One delete statement with the source's batch size. -/
def deleteBatch (cutoff : Int) (rows : List Int) : List Int × Nat :=
  deleteBatchAux cutoff batchSize rows

/-- The per-table `for { ... }` loop: delete a batch, stop when
`result.RowsAffected < int64(batchSize)`. `fuel` bounds the iterations;
`deleteOldMetricsTable` supplies enough for the loop to reach its exit
condition. -/
def deleteLoop (cutoff : Int) : Nat → List Int → List Int
  | 0, rows => rows
  | f + 1, rows =>
      let p := deleteBatch cutoff rows
      if p.2 < batchSize then p.1 else deleteLoop cutoff f p.1

/-- The batched deletion applied to one table. -/
def deleteOldMetricsTable (cutoff : Int) (rows : List Int) : List Int :=
  deleteLoop cutoff (rows.length + 1) rows

/-- `DeleteOldMetrics(ctx, beforeTimestamp)`: the batched delete applied
to each of the metric tables in turn. -/
def deleteOldMetrics (cutoff : Int) (tables : List (List Int)) : List (List Int) :=
  tables.map (deleteOldMetricsTable cutoff)

/-! ## Notifier: sink dispatch (`Notifier.SendNotification`)

`SendNotification` builds the message, then tries DingTalk, WeCom,
Feishu and the custom webhook in that order; a sink is tried when its
enable flag is set AND its webhook URL is non-empty; each failure is
collected and the remaining sinks still run; the call errs iff the
collected error list is non-empty. The e-mail sink is commented out in
the source and therefore absent here. Every sink delivery goes through
`sendJSONRequest`: one POST with `Content-Type: application/json` and a
10-second `http.Client` timeout, no retry; a response status outside
[200, 300) or a transport error is a failure. -/

structure NotificationConfig where
  dingTalkEnabled : Bool
  dingTalkWebhook : String
  dingTalkSecret : String
  weComEnabled : Bool
  weComWebhook : String
  feishuEnabled : Bool
  feishuWebhook : String
  customWebhookEnabled : Bool
  customWebhookURL : String
deriving DecidableEq

inductive Sink where
  | dingTalk
  | weCom
  | feishu
  | custom
deriving DecidableEq

/-- What one HTTP delivery attempt observes. -/
inductive SinkOutcome where
  | response (status : Nat)
  | transportError
deriving DecidableEq

/-- `sendJSONRequest` error classification:
`resp.StatusCode < 200 || resp.StatusCode >= 300`, or `client.Do` error. -/
def sendJSONRequestFails : SinkOutcome → Bool
  | SinkOutcome.response s => decide (s < 200) || decide (300 ≤ s)
  | SinkOutcome.transportError => true

/-- Shape of the one HTTP request `sendJSONRequest` issues. -/
structure RequestShape where
  method : String
  contentType : String
  timeoutSeconds : Nat
  attempts : Nat
deriving DecidableEq

/-- The request every sink delivery uses: a single POST of
application/json with `http.Client{Timeout: 10 * time.Second}`. -/
def sendJSONRequestShape : RequestShape := ⟨"POST", "application/json", 10, 1⟩

/-- The source's per-sink guard, e.g.
`notification.DingTalkEnabled && notification.DingTalkWebhook != ""`. -/
def sinkConfigured (cfg : NotificationConfig) : Sink → Bool
  | Sink.dingTalk => cfg.dingTalkEnabled && !(cfg.dingTalkWebhook == "")
  | Sink.weCom => cfg.weComEnabled && !(cfg.weComWebhook == "")
  | Sink.feishu => cfg.feishuEnabled && !(cfg.feishuWebhook == "")
  | Sink.custom => cfg.customWebhookEnabled && !(cfg.customWebhookURL == "")

/-- The order the source tries the sinks in. -/
def sinkOrder : List Sink := [Sink.dingTalk, Sink.weCom, Sink.feishu, Sink.custom]

/-- `SendNotification`, abstracted over the network (`outcome` gives each
sink's would-be delivery result). Returns (sinks attempted in order,
sinks whose delivery failed, whether the call returns an error). -/
def sendNotification (cfg : NotificationConfig) (outcome : Sink → SinkOutcome) :
    List Sink × List Sink × Bool :=
  let att1 : List Sink := if sinkConfigured cfg Sink.dingTalk then [Sink.dingTalk] else []
  let err1 : List Sink :=
    if sinkConfigured cfg Sink.dingTalk && sendJSONRequestFails (outcome Sink.dingTalk) then
      [Sink.dingTalk] else []
  let att2 : List Sink := if sinkConfigured cfg Sink.weCom then [Sink.weCom] else []
  let err2 : List Sink :=
    if sinkConfigured cfg Sink.weCom && sendJSONRequestFails (outcome Sink.weCom) then
      [Sink.weCom] else []
  let att3 : List Sink := if sinkConfigured cfg Sink.feishu then [Sink.feishu] else []
  let err3 : List Sink :=
    if sinkConfigured cfg Sink.feishu && sendJSONRequestFails (outcome Sink.feishu) then
      [Sink.feishu] else []
  let att4 : List Sink := if sinkConfigured cfg Sink.custom then [Sink.custom] else []
  let err4 : List Sink :=
    if sinkConfigured cfg Sink.custom && sendJSONRequestFails (outcome Sink.custom) then
      [Sink.custom] else []
  (att1 ++ att2 ++ att3 ++ att4, err1 ++ err2 ++ err3 ++ err4,
   !(err1 ++ err2 ++ err3 ++ err4).isEmpty)

/-- Configuration with the DingTalk sink enabled but its webhook URL
empty (everything else off). -/
def cfgEnabledEmptyURL : NotificationConfig := ⟨true, "", "", false, "", false, "", false, ""⟩

/-! ## Notifier: DingTalk signing (`sendDingTalk`, `calculateDingTalkSign`)

Executable SHA-256 / HMAC-SHA256 / standard base64 over byte lists
(bytes and 32-bit words are `Nat` with explicit reduction mod 2^32). -/

/-- Reduce mod 2^32. -/
def w32 (n : Nat) : Nat := n % 4294967296

/-- Rotate a 32-bit word right by `n`, in plain `Nat` arithmetic. -/
def rotr32 (x n : Nat) : Nat := x / 2 ^ n + x % 2 ^ n * 2 ^ (32 - n)

/-- Bitwise complement of a 32-bit word. -/
def not32 (x : Nat) : Nat := 4294967295 - x

def shaCh (x y z : Nat) : Nat := (x &&& y) ^^^ (not32 x &&& z)

def shaMaj (x y z : Nat) : Nat := (x &&& y) ^^^ (x &&& z) ^^^ (y &&& z)

def bigSigma0 (x : Nat) : Nat := rotr32 x 2 ^^^ rotr32 x 13 ^^^ rotr32 x 22

def bigSigma1 (x : Nat) : Nat := rotr32 x 6 ^^^ rotr32 x 11 ^^^ rotr32 x 25

def smallSigma0 (x : Nat) : Nat := rotr32 x 7 ^^^ rotr32 x 18 ^^^ x / 2 ^ 3

def smallSigma1 (x : Nat) : Nat := rotr32 x 17 ^^^ rotr32 x 19 ^^^ x / 2 ^ 10

/-- The 64 SHA-256 round constants, as decimal naturals. -/
def shaK : List Nat :=
  [1116352408, 1899447441, 3049323471, 3921009573, 961987163,
   1508970993, 2453635748, 2870763221, 3624381080, 310598401,
   607225278, 1426881987, 1925078388, 2162078206, 2614888103,
   3248222580, 3835390401, 4022224774, 264347078, 604807628,
   770255983, 1249150122, 1555081692, 1996064986, 2554220882,
   2821834349, 2952996808, 3210313671, 3336571891, 3584528711,
   113926993, 338241895, 666307205, 773529912, 1294757372,
   1396182291, 1695183700, 1986661051, 2177026350, 2456956037,
   2730485921, 2820302411, 3259730800, 3345764771, 3516065817,
   3600352804, 4094571909, 275423344, 430227734, 506948616,
   659060556, 883997877, 958139571, 1322822218, 1537002063,
   1747873779, 1955562222, 2024104815, 2227730452, 2361852424,
   2428436474, 2756734187, 3204031479, 3329325298]

/-- The eight-word SHA-256 starting state, as decimal naturals. -/
def sha256Init : List Nat :=
  [1779033703, 3144134277, 1013904242,
   2773480762, 1359893119, 2600822924,
   528734635, 1541459225]

/-- Extend 16 message words to the 64-word schedule. -/
def shaSchedule (ws : List Nat) : List Nat :=
  (List.range 48).foldl
    (fun acc _ =>
      acc ++ [w32 (smallSigma1 (acc.getD (acc.length - 2) 0) + acc.getD (acc.length - 7) 0 +
                   smallSigma0 (acc.getD (acc.length - 15) 0) + acc.getD (acc.length - 16) 0)])
    ws

/-- One SHA-256 block compression. -/
def shaCompress (h0 : List Nat) (ws : List Nat) : List Nat :=
  let fin := (shaK.zip (shaSchedule ws)).foldl
    (fun st kw =>
      match st with
      | [a, b, c, d, e, f, g, hh] =>
          let t1 := w32 (hh + bigSigma1 e + shaCh e f g + kw.1 + kw.2)
          let t2 := w32 (bigSigma0 a + shaMaj a b c)
          [w32 (t1 + t2), a, b, c, w32 (d + t1), e, f, g]
      | other => other)
    h0
  (h0.zip fin).map (fun p => w32 (p.1 + p.2))

/-- Big-endian byte expansion of `n` into `k` bytes. -/
def beBytes (k n : Nat) : List Nat :=
  (List.range k).map (fun i => n / 2 ^ (8 * (k - 1 - i)) % 256)

/-- Pack bytes into big-endian 32-bit words. -/
def bytesToWords : List Nat → List Nat
  | b0 :: b1 :: b2 :: b3 :: rest => (((b0 * 256 + b1) * 256 + b2) * 256 + b3) :: bytesToWords rest
  | _ => []

def chunks64Aux : Nat → List Nat → List (List Nat)
  | 0, _ => []
  | _, [] => []
  | f + 1, l => l.take 64 :: chunks64Aux f (l.drop 64)

/-- Split a byte list into 64-byte blocks. -/
def chunks64 (l : List Nat) : List (List Nat) := chunks64Aux (l.length + 1) l

/-- SHA-256 padding: 0x80, zeros to 56 mod 64, 8-byte big-endian bit
length. -/
def shaPad (msg : List Nat) : List Nat :=
  msg ++ [128] ++ List.replicate ((119 - msg.length % 64) % 64) 0 ++ beBytes 8 (8 * msg.length)

/-- SHA-256 of a byte list. -/
def sha256 (msg : List Nat) : List Nat :=
  (((chunks64 (shaPad msg)).foldl (fun h blk => shaCompress h (bytesToWords blk))
      sha256Init).map (beBytes 4)).flatten

/-- HMAC-SHA256 (`crypto/hmac` with `sha256.New`): block size 64. -/
def hmacSha256 (key msg : List Nat) : List Nat :=
  let k0 := if 64 < key.length then sha256 key else key
  let kpad := k0 ++ List.replicate (64 - k0.length) 0
  sha256 ((kpad.map (fun b => b ^^^ 92)) ++ sha256 ((kpad.map (fun b => b ^^^ 54)) ++ msg))

/-- UTF-8 encoding of one code point (Go `[]byte(string)`). -/
def utf8Bytes (c : Nat) : List Nat :=
  if c < 128 then [c]
  else if c < 2048 then [192 + c / 64, 128 + c % 64]
  else if c < 65536 then [224 + c / 4096, 128 + c / 64 % 64, 128 + c % 64]
  else [240 + c / 262144, 128 + c / 4096 % 64, 128 + c / 64 % 64, 128 + c % 64]

/-- The bytes of a string. -/
def strBytes (s : String) : List Nat := (s.data.map (fun c => utf8Bytes c.toNat)).flatten

/-- The standard base64 alphabet (`encoding/base64` `StdEncoding`). -/
def b64Chars : List Char :=
  "ABCDEFGHIJKLMNOPQRSTUVWXYZabcdefghijklmnopqrstuvwxyz0123456789+/".data

def b64Char (n : Nat) : Char := b64Chars.getD n 'A'

/-- Standard base64 with padding, 3 bytes at a time. -/
def base64Aux : List Nat → List Char
  | [] => []
  | [a] => [b64Char (a / 4), b64Char (a % 4 * 16), '=', '=']
  | [a, b] => [b64Char (a / 4), b64Char (a % 4 * 16 + b / 16), b64Char (b % 16 * 4), '=']
  | a :: b :: c :: rest =>
      b64Char (a / 4) :: b64Char (a % 4 * 16 + b / 16) ::
        b64Char (b % 16 * 4 + c / 64) :: b64Char (c % 64) :: base64Aux rest

def base64Encode (bs : List Nat) : String := String.mk (base64Aux bs)

/-- `calculateDingTalkSign(timestamp, secret)`:
`stringToSign := fmt.Sprintf("%d\n%s", timestamp, secret)`, HMAC-SHA256
keyed by the secret, base64 (std) encoded. -/
def calculateDingTalkSign (timestamp : Int) (secret : String) : String :=
  base64Encode (hmacSha256 (strBytes secret) (strBytes (toString timestamp ++ "\n" ++ secret)))

/-- The URL `sendDingTalk` posts to: when a secret is configured,
`fmt.Sprintf("%s&timestamp=%d&sign=%s", webhook, timestamp, sign)`,
otherwise the webhook unchanged. -/
def sendDingTalkURL (webhook secret : String) (timestamp : Int) : String :=
  if secret ≠ "" then
    webhook ++ "&timestamp=" ++ toString timestamp ++ "&sign=" ++
      calculateDingTalkSign timestamp secret
  else webhook

/-- Specification-side: uppercase hex digits. -/
def urlHexUpper : List Char := "0123456789ABCDEF".data

/-- Specification-side: characters Go `url.QueryEscape` leaves as-is. -/
def isUnreservedQuery (c : Char) : Bool :=
  ('A' ≤ c && c ≤ 'Z') || ('a' ≤ c && c ≤ 'z') || ('0' ≤ c && c ≤ '9') ||
    c == '-' || c == '_' || c == '.' || c == '~'

/-- Specification-side: `url.QueryEscape` on one character. -/
def urlEncodeChar (c : Char) : List Char :=
  if isUnreservedQuery c then [c]
  else if c == ' ' then ['+']
  else ['%', urlHexUpper.getD (c.toNat / 16) 'X', urlHexUpper.getD (c.toNat % 16) 'X']

/-- Specification-side: URL (query) encoding of a string, as the claim
says the signature should undergo. -/
def urlEncode (s : String) : String := String.mk ((s.data.map urlEncodeChar).flatten)

/-! ## Helper lemmas about the association-list operations -/

theorem alookup_insertId_self {V : Type} (l : List (String × V)) (k : String) (v : V) :
    alookup (insertId l k v) k = some v := by
  induction l with
  | nil => simp [insertId, alookup]
  | cons p rest ih =>
      by_cases h : p.1 = k
      · simp [insertId, h, alookup]
      · simp [insertId, h, alookup, ih]

theorem keys_insertId_of_mem {V : Type} (l : List (String × V)) (k : String) (v : V)
    (h : (alookup l k).isSome) :
    (insertId l k v).map Prod.fst = l.map Prod.fst := by
  induction l with
  | nil => simp [alookup] at h
  | cons p rest ih =>
      by_cases hk : p.1 = k
      · simp [insertId, hk]
      · simp [alookup, hk] at h
        simp [insertId, hk, ih h]

theorem countKey_eq_zero_of_not_mem {V : Type} (l : List (String × V)) (k : String)
    (h : k ∉ l.map Prod.fst) : countKey l k = 0 := by
  induction l with
  | nil => rfl
  | cons p rest ih =>
      have h1 : ¬ p.1 = k := by
        intro he
        exact h (by simp [he])
      have h2 : k ∉ rest.map Prod.fst := by
        intro hm
        exact h (by simp [hm])
      have h3 := ih h2
      unfold countKey at h3 ⊢
      rw [List.filter_cons, if_neg (by simp [h1])]
      exact h3

theorem countKey_le_one_of_nodup {V : Type} (l : List (String × V))
    (h : keysNodup l) (k : String) : countKey l k ≤ 1 := by
  induction l with
  | nil => simp [countKey]
  | cons p rest ih =>
      have h2 : (rest.map Prod.fst).Nodup := (List.nodup_cons.mp h).2
      have hnm : p.1 ∉ rest.map Prod.fst := (List.nodup_cons.mp h).1
      by_cases hk : p.1 = k
      · have hkn : k ∉ rest.map Prod.fst := hk ▸ hnm
        have hz := countKey_eq_zero_of_not_mem rest k hkn
        unfold countKey at hz ⊢
        rw [List.filter_cons, if_pos (by simp [hk]), List.length_cons, hz]
      · have h4 := ih h2
        unfold countKey at h4 ⊢
        rw [List.filter_cons]
        simp [hk]
        exact h4

theorem closeChannel_connClose (c : Client) :
    c.closeChannel.connClose = ⟨c.id, c.uid, c.lastActive, true, true⟩ := by
  rcases c with ⟨i, u, la, cl, sk⟩
  cases cl <;> simp [Client.closeChannel, Client.connClose]

theorem evictLoop_eq (tbl : List (String × Client)) (l : List Client) :
    evictLoop tbl l =
      ((l.filter (fun c => (alookup tbl c.id).isSome)).map Client.connClose,
       l.filter (fun c => (alookup tbl c.id).isSome)) := by
  induction l with
  | nil => simp [evictLoop]
  | cons c rest ih =>
      by_cases h : (alookup tbl c.id).isSome
      · simp [evictLoop, ih, h, List.filter]
      · simp [evictLoop, ih, h, List.filter]

/-! ## Claim theorems: session manager -/

/-- Claim C1: registering a session whose probe id is already registered
closes the prior session's send queue and socket, leaves exactly the new
session registered for that id, and preserves the at-most-one-session-per-
probe-id invariant. -/
theorem register_displaces (m : Manager) (c old : Client)
    (hwf : keysNodup m.clients) (hold : alookup m.clients c.id = some old) :
    alookup (m.registerClient c).1.clients c.id = some c ∧
    (m.registerClient c).2 = some ⟨old.id, old.uid, old.lastActive, true, true⟩ ∧
    keysNodup (m.registerClient c).1.clients ∧
    ∀ k, countKey (m.registerClient c).1.clients k ≤ 1 := by
  have hreg : m.registerClient c =
      (⟨insertId m.clients c.id c, m.unregisterQueue⟩, some old.closeChannel.connClose) := by
    simp [Manager.registerClient, hold]
  have hkeys : (insertId m.clients c.id c).map Prod.fst = m.clients.map Prod.fst :=
    keys_insertId_of_mem m.clients c.id c (by simp [hold])
  have hwf2 : keysNodup (insertId m.clients c.id c) := by
    unfold keysNodup
    rw [hkeys]
    exact hwf
  refine ⟨?_, ?_, ?_, ?_⟩
  · rw [hreg]; exact alookup_insertId_self m.clients c.id c
  · rw [hreg]; simp [closeChannel_connClose]
  · rw [hreg]; exact hwf2
  · intro k; rw [hreg]; exact countKey_le_one_of_nodup _ hwf2 k

/-- Claim C1 witness: `regNew` displaces `regOld` in `mgrOne`. -/
theorem register_displaces_witness :
    keysNodup mgrOne.clients ∧ alookup mgrOne.clients regNew.id = some regOld ∧
    (alookup (mgrOne.registerClient regNew).1.clients regNew.id = some regNew ∧
     (mgrOne.registerClient regNew).2 = some ⟨regOld.id, regOld.uid, regOld.lastActive, true, true⟩ ∧
     keysNodup (mgrOne.registerClient regNew).1.clients ∧
     ∀ k, countKey (mgrOne.registerClient regNew).1.clients k ≤ 1) :=
  ⟨by decide, by decide, register_displaces mgrOne regNew regOld (by decide) (by decide)⟩

/-- Claim C2 (code bug): `unregisterClient` checks only the probe id, not
the session identity. Unregistering the stale `staleClient` while the
newer `freshClient` is the one registered under `"p"` deletes the newer
session's registration, leaving nothing registered for `"p"`. -/
theorem unregister_id_only_bug :
    alookup (mgrAfterDisplacement.unregisterClient staleClient).1.clients "p" = none ∧
    staleClient ≠ freshClient ∧ staleClient.id = freshClient.id ∧
    alookup mgrAfterDisplacement.clients "p" = some freshClient := by
  decide

/-- Claim C3 counterexample: a session whose inactivity is exactly 120 s
(`lastActive = 0`, `now = 120000`) is NOT selected for eviction on that
tick (the source compares with strict `>`), so nothing is closed and no
unregister is enqueued. -/
theorem eviction_boundary_counterexample :
    mgrBoundary.selectInactive 120000 = [] ∧
    (mgrBoundary.checkInactiveClients 120000).2 = [] ∧
    (mgrBoundary.checkInactiveClients 120000).1.unregisterQueue = [] := by
  decide

/-- Claim C3 (amended): a session is selected for eviction iff its
inactivity strictly exceeds 120 s; each selected session still present in
the table (re-verified by id) gets its socket closed and an unregister
enqueued; the table itself is not modified by the tick. -/
theorem eviction_tick (m : Manager) (now : Int) :
    (m.checkInactiveClients now).2 =
      ((m.selectInactive now).filter (fun c => (alookup m.clients c.id).isSome)).map Client.connClose ∧
    (m.checkInactiveClients now).1.clients = m.clients ∧
    (m.checkInactiveClients now).1.unregisterQueue =
      m.unregisterQueue ++ (m.selectInactive now).filter (fun c => (alookup m.clients c.id).isSome) ∧
    m.selectInactive now =
      (m.clients.map Prod.snd).filter (fun c => decide (120000 < now - c.lastActive)) := by
  refine ⟨?_, ?_, ?_, rfl⟩
  · simp [Manager.checkInactiveClients, evictLoop_eq]
  · simp [Manager.checkInactiveClients]
  · simp [Manager.checkInactiveClients, evictLoop_eq]

/-! ## Claim theorems: probe session read loop -/

/-- Claim C4 counterexample: a session initialized at t = 0 has deadline
60000; after an inbound frame at t = 30000 the deadline is still 60000,
not reset to 60 s from now — inbound frames do not extend the read
deadline. -/
theorem read_deadline_frame_counterexample :
    (readPumpStep (readPumpInit 0 0) 30000 (ReadEvent.frame true)).readDeadline = 60000 ∧
    (readPumpStep (readPumpInit 0 0) 30000 (ReadEvent.frame true)).readDeadline ≠
      30000 + readTimeoutMs := by
  decide

/-- Claim C4 (amended): the read deadline starts at 60 s from loop entry
and is reset to 60 s from now on every pong; an inbound frame updates
`last_active` but leaves the read deadline unchanged. -/
theorem read_deadline_updates (s : ReadState) (now la : Int) (d : Bool) :
    (readPumpInit now la).readDeadline = now + 60000 ∧
    (readPumpStep s now ReadEvent.pong).readDeadline = now + 60000 ∧
    (readPumpStep s now ReadEvent.pong).lastActive = now ∧
    (readPumpStep s now (ReadEvent.frame d)).readDeadline = s.readDeadline ∧
    (readPumpStep s now (ReadEvent.frame d)).lastActive = now :=
  ⟨rfl, rfl, rfl, rfl, rfl⟩

/-- Claim C5: read-loop error handling. Frames whose envelope fails to
decode are skipped while the loop keeps handling later frames; the
deferred unregister hand-off and socket close happen exactly when an I/O
error occurs (so a decode failure alone never deregisters the session). -/
theorem read_loop_errors (evs : List InEvent) :
    runReadPump evs =
      ⟨handledFrames evs, skippedFrames evs, evs.any isIOError, evs.any isIOError⟩ := by
  induction evs with
  | nil => rfl
  | cons e rest ih =>
      cases e with
      | ioError =>
          simp [runReadPump, handledFrames, skippedFrames, isIOError, List.takeWhile]
      | frame p ok =>
          cases ok <;>
            simp [runReadPump, handledFrames, skippedFrames, isIOError,
              List.takeWhile, ih]

/-! ## Claim theorems: metric converter -/

/-- Every metric built by `createMetric` carries the requested name as its
`__name__` label. -/
theorem metricName_createMetric (n a : String) (ex : List (String × String)) (v t : Int) :
    metricName (createMetric n a ex v t) = n := rfl

/-- `List.all` distributes over `List.flatMap` when every generated chunk
satisfies the check. -/
theorem all_flatMap {α β : Type} (l : List α) (f : α → List β) (p : β → Bool)
    (h : ∀ x, (f x).all p = true) : (l.flatMap f).all p = true := by
  induction l with
  | nil => rfl
  | cons x rest ih =>
      simp [List.flatMap_cons, List.all_append, h x, ih]

/-- Claim C6 counterexample: on a cpu payload, the converter emits the
names `pika_cpu_usage_percent`, `pika_cpu_cores_logical`,
`pika_cpu_cores_physical`, and the first of these is not in the set
`{cpu_usage_percent, cpu_cores_logical, cpu_cores_physical}` that the
claim enumerates: the emitted names are not those of the §4.2 table. -/
theorem converter_names_counterexample :
    ((convertToMetrics "a" MetricType.cpu (MetricBody.cpu ⟨0, 0, 0⟩) 0).getD []).map metricName =
      ["pika_cpu_usage_percent", "pika_cpu_cores_logical", "pika_cpu_cores_physical"] ∧
    "pika_cpu_usage_percent" ∉ ["cpu_usage_percent", "cpu_cores_logical", "cpu_cores_physical"] := by
  decide

/-- Claim C6 (amended): every metric the converter can emit, for any
input, has a name in the closed set `pikaMetricNames` (the §4.2 table
names, each carrying the source's `pika_` leading marker), and a cpu
payload yields exactly the three cpu names of that set. -/
theorem converter_names_closed (a : String) (k : MetricType) (b : MetricBody) (t : Int) :
    ((convertToMetrics a k b t).getD []).all
        (fun m => pikaMetricNames.contains (metricName m)) = true ∧
    (∀ d : CPUData,
      ((convertToMetrics a MetricType.cpu (MetricBody.cpu d) t).getD []).map metricName =
        ["pika_cpu_usage_percent", "pika_cpu_cores_logical", "pika_cpu_cores_physical"]) := by
  constructor
  · cases k <;> cases b <;>
      first
        | rfl
        | exact all_flatMap _ _ _ (fun d => rfl)
  · intro d
    rfl

/-- Claim C7 counterexample: for the known kind `cpu` with a body whose
dynamic type does not match (`*MemoryData` instead of `*CPUData`), the
source's unchecked type assertion panics; the converter does not return a
sample list. -/
theorem converter_totality_counterexample :
    convertToMetrics "a" MetricType.cpu (MetricBody.memory ⟨0, 0, 0, 0, 0, 0⟩) 0 = none := rfl

/-- Claim C7 (amended): the converter returns a sample list exactly when
the body's dynamic type matches the kind's assertion (unknown kinds
assert nothing); for every unknown kind the payload is dropped and the
result is the empty list. -/
theorem converter_totality (a : String) (k : MetricType) (b : MetricBody) (t : Int) :
    (convertToMetrics a k b t).isSome = bodyMatchesKind k b ∧
    (∀ s : String, convertToMetrics a (MetricType.other s) b t = some []) := by
  constructor
  · cases k <;> cases b <;> rfl
  · intro s
    cases b <;> rfl

/-! ## Claim theorems: retention sweep -/

/-- A delete statement never reports more rows than its budget. -/
theorem deleteBatchAux_le (cutoff : Int) :
    ∀ (l : List Int) (b : Nat), (deleteBatchAux cutoff b l).2 ≤ b := by
  intro l
  induction l with
  | nil =>
      intro b
      cases b <;> simp [deleteBatchAux]
  | cons r rest ih =>
      intro b
      cases b with
      | zero => simp [deleteBatchAux]
      | succ b =>
          by_cases h : r < cutoff
          · have := ih b
            simp [deleteBatchAux, h]
            omega
          · have := ih (b + 1)
            simp [deleteBatchAux, h]
            omega

/-- A delete statement removes only matching rows: the non-matching rows
of the result are those of the input, in order. -/
theorem deleteBatchAux_filter (cutoff : Int) :
    ∀ (l : List Int) (b : Nat),
      (deleteBatchAux cutoff b l).1.filter (fun r => decide (cutoff ≤ r)) =
        l.filter (fun r => decide (cutoff ≤ r)) := by
  intro l
  induction l with
  | nil =>
      intro b
      cases b <;> simp [deleteBatchAux]
  | cons r rest ih =>
      intro b
      cases b with
      | zero => simp [deleteBatchAux]
      | succ b =>
          by_cases h : r < cutoff
          · have hno : ¬ cutoff ≤ r := not_le.mpr h
            simp [deleteBatchAux, h, List.filter_cons, hno, ih b]
          · have hyes : cutoff ≤ r := not_lt.mp h
            simp [deleteBatchAux, h, List.filter_cons, hyes, ih (b + 1)]

/-- A delete statement that does not exhaust its budget removes every
matching row. -/
theorem deleteBatchAux_complete (cutoff : Int) :
    ∀ (l : List Int) (b : Nat), (deleteBatchAux cutoff b l).2 < b →
      (deleteBatchAux cutoff b l).1 = l.filter (fun r => decide (cutoff ≤ r)) := by
  intro l
  induction l with
  | nil =>
      intro b _
      simp [deleteBatchAux]
  | cons r rest ih =>
      intro b h
      cases b with
      | zero =>
          simp [deleteBatchAux] at h
      | succ b =>
          by_cases hr : r < cutoff
          · have hno : ¬ cutoff ≤ r := not_le.mpr hr
            have h2 : (deleteBatchAux cutoff b rest).2 < b := by
              simp [deleteBatchAux, hr] at h
              omega
            simp [deleteBatchAux, hr, List.filter_cons, hno, ih b h2]
          · have hyes : cutoff ≤ r := not_lt.mp hr
            have h2 : (deleteBatchAux cutoff (b + 1) rest).2 < b + 1 := by
              simp [deleteBatchAux, hr] at h
              omega
            simp [deleteBatchAux, hr, List.filter_cons, hyes, ih (b + 1) h2]

/-- Row accounting of one delete statement. -/
theorem deleteBatchAux_length (cutoff : Int) :
    ∀ (l : List Int) (b : Nat),
      (deleteBatchAux cutoff b l).1.length + (deleteBatchAux cutoff b l).2 = l.length := by
  intro l
  induction l with
  | nil =>
      intro b
      cases b <;> simp [deleteBatchAux]
  | cons r rest ih =>
      intro b
      cases b with
      | zero => simp [deleteBatchAux]
      | succ b =>
          by_cases h : r < cutoff
          · have := ih b
            simp [deleteBatchAux, h]
            omega
          · have := ih (b + 1)
            simp [deleteBatchAux, h]
            omega

/-- With enough fuel, the delete loop leaves exactly the rows at or above
the cutoff. -/
theorem deleteLoop_correct (cutoff : Int) :
    ∀ (fuel : Nat) (rows : List Int), rows.length < batchSize * fuel →
      deleteLoop cutoff fuel rows = rows.filter (fun r => decide (cutoff ≤ r)) := by
  intro fuel
  induction fuel with
  | zero =>
      intro rows h
      simp [batchSize] at h
  | succ f ih =>
      intro rows h
      by_cases hb : (deleteBatch cutoff rows).2 < batchSize
      · simp only [deleteLoop, hb, if_true]
        exact deleteBatchAux_complete cutoff rows batchSize hb
      · have hn : (deleteBatch cutoff rows).2 = batchSize :=
          le_antisymm (deleteBatchAux_le cutoff rows batchSize) (not_lt.mp hb)
        have hlen := deleteBatchAux_length cutoff rows batchSize
        have hrec : (deleteBatch cutoff rows).1.length < batchSize * f := by
          unfold deleteBatch at hn hlen ⊢
          simp [batchSize] at hn hlen h ⊢
          omega
        have := ih (deleteBatch cutoff rows).1 hrec
        simp only [deleteLoop, hb, if_false]
        rw [this]
        exact deleteBatchAux_filter cutoff rows batchSize

/-- Claim C10: the retention deletion removes exactly the rows with
timestamp strictly below the cutoff (every row at or above the cutoff is
left, in order), and each delete statement removes at most 1000 rows. -/
theorem retention_sweep (cutoff : Int) (tables : List (List Int)) :
    deleteOldMetrics cutoff tables =
      tables.map (fun rows => rows.filter (fun r => decide (cutoff ≤ r))) ∧
    (∀ rows : List Int, (deleteBatch cutoff rows).2 ≤ 1000) := by
  constructor
  · have hf : ∀ rows : List Int,
        deleteOldMetricsTable cutoff rows = rows.filter (fun r => decide (cutoff ≤ r)) := by
      intro rows
      apply deleteLoop_correct
      simp [batchSize]
      omega
    unfold deleteOldMetrics
    exact List.map_congr_left (fun rows _ => hf rows)
  · intro rows
    exact deleteBatchAux_le cutoff rows batchSize

/-! ## Claim theorems: notifier -/

/-- Claim C9 counterexample: with the DingTalk sink enabled but its
webhook URL empty, `SendNotification` attempts no sink at all (the source
guards each sink with `Enabled && Webhook != ""`), although the claim
requires every enabled sink to be attempted. -/
theorem notify_counterexample :
    (sendNotification cfgEnabledEmptyURL (fun _ => SinkOutcome.response 200)).1 = [] ∧
    cfgEnabledEmptyURL.dingTalkEnabled = true := by
  decide

/-- Claim C9 (amended): every sink that is enabled and has a non-empty
webhook URL is attempted, in a fixed order that depends only on the
configuration — so a failing sink never prevents the remaining sinks from
being attempted; each attempt is one POST of application/json under a
10-second timeout with no retry; a sink is in error exactly when its own
delivery returns a non-2xx status or a transport failure; the call
returns an error iff some attempted sink failed. -/
theorem notify_all_sinks (cfg : NotificationConfig) (outcome : Sink → SinkOutcome) :
    (sendNotification cfg outcome).1 = sinkOrder.filter (sinkConfigured cfg) ∧
    (sendNotification cfg outcome).2.1 =
      (sinkOrder.filter (sinkConfigured cfg)).filter (fun s => sendJSONRequestFails (outcome s)) ∧
    (sendNotification cfg outcome).2.2 =
      !((sinkOrder.filter (sinkConfigured cfg)).filter
          (fun s => sendJSONRequestFails (outcome s))).isEmpty ∧
    sendJSONRequestShape = ⟨"POST", "application/json", 10, 1⟩ := by
  cases hd : sinkConfigured cfg Sink.dingTalk <;>
    cases hw : sinkConfigured cfg Sink.weCom <;>
      cases hf : sinkConfigured cfg Sink.feishu <;>
        cases hc : sinkConfigured cfg Sink.custom <;>
          cases o1 : sendJSONRequestFails (outcome Sink.dingTalk) <;>
            cases o2 : sendJSONRequestFails (outcome Sink.weCom) <;>
              cases o3 : sendJSONRequestFails (outcome Sink.feishu) <;>
                cases o4 : sendJSONRequestFails (outcome Sink.custom) <;>
                  simp [sendNotification, sinkOrder, sendJSONRequestShape, hd, hw, hf, hc, o1, o2, o3, o4]

/-! ## Claim theorems: DingTalk signing -/

set_option maxRecDepth 400000 in
/-- Claim C8 counterexample: at timestamp 0 with secret "s", the URL the
source builds is not the one with a URL-encoded signature — the base64
signature (which here ends in '=' and contains '+') is appended verbatim,
and URL-encoding it would change it. -/
theorem dingtalk_sign_counterexample :
    sendDingTalkURL "https://oapi.dingtalk.com/robot/send?access_token=t" "s" 0 ≠
      "https://oapi.dingtalk.com/robot/send?access_token=t" ++ "&timestamp=0&sign=" ++
        urlEncode (calculateDingTalkSign 0 "s") ∧
    urlEncode (calculateDingTalkSign 0 "s") ≠ calculateDingTalkSign 0 "s" ∧
    calculateDingTalkSign 0 "s" = "m1fU+M7jfQeECqw4upl+0PhfsBUPXSP2rJWC1Yt7oR0=" := by
  refine ⟨by decide, by decide, by decide⟩

/-- Claim C8 (amended): with a secret configured the notifier appends
`&timestamp=<ms>&sign=<base64(hmac_sha256(secret, "<ms>\n<secret>"))>`
to the webhook URL, the signature appended as raw base64 (not
URL-encoded); with no secret the webhook is posted unchanged. -/
theorem dingtalk_sign_formula (webhook secret : String) (ts : Int) :
    sendDingTalkURL webhook secret ts =
      if secret = "" then webhook
      else webhook ++ "&timestamp=" ++ toString ts ++ "&sign=" ++
        base64Encode (hmacSha256 (strBytes secret)
          (strBytes (toString ts ++ "\n" ++ secret))) := by
  by_cases h : secret = "" <;> simp [sendDingTalkURL, calculateDingTalkSign, h]
